import Mathlib

/-!
Shallow embedding of `src/chromaprint.py` (pyacoustid's low-level ctypes
wrapper around the native chromaprint engine), together with proofs about
the wrapper's behaviour.

The native library `libchromaprint` is an external collaborator: only its
prototypes are declared in the source (lines 44-81).  We therefore model
the engine as an abstract record of pure functions matching those
prototypes, and prove the wrapper's properties for every engine (adding,
where a claim needs it, hypotheses that state the engine contract given in
the specification).  Concrete engine instances (`refEngine`, `failEngine`)
instantiate the interface for witnesses and counterexamples.

Machine integers: `ctypes.c_int` / `ctypes.c_int32` storage is modelled by
`toInt32`, wrapping an unbounded `Int` into the signed 32-bit range, which
is what ctypes does on assignment and what reading a `c_int32` cell yields.
Byte strings are `List Nat` (each entry a byte value).  Fallible Python
code (raising) is modelled with `Except`.
-/

namespace Chromaprint

/-- Wrap an integer into signed 32-bit range, as `ctypes.c_int` /
`ctypes.c_int32` storage does on assignment and read. -/
def toInt32 (n : Int) : Int :=
  (n + 2147483648) % 4294967296 - 2147483648

/-- Errors the wrapper can raise: Python's builtin `TypeError`
(raised directly in `feed`, line 126) and the module's single
`FingerprintError` class (lines 86-87).  `FingerprintError` carries no
payload and has no subclasses in the source. -/
inductive PyErr
  | typeError
  | fingerprintError
  deriving DecidableEq

/-- Events recording what the wrapper does with the engine: each engine
call with the exact arguments passed, plus allocation of a native output
buffer by the engine and its release via `chromaprint_dealloc`.  Buffers
are identified by an abstract id. -/
inductive Event
  | callStart (ctx : Nat) (sample_rate num_channels : Int)
  | callFeed (ctx : Nat) (data : List Nat) (nsamples : Nat)
  | callFinish (ctx : Nat)
  | callGetFingerprint (ctx : Nat)
  | callDecode (data : List Nat) (len : Nat) (flag : Int)
  | callEncode (arr : List Int) (len : Nat) (algorithm : Int) (flag : Int)
  | allocBuf (id : Nat)
  | deallocBuf (id : Nat)
  deriving DecidableEq

/-- Abstract interface of the native engine, one field per prototype
declared in the source (lines 44-81).  Status codes are `c_int` results.
The calls that fill caller-provided out-pointers return, besides their
status, an `Option` holding the engine-allocated buffer: its abstract id
together with its contents (and the reported size / algorithm out-values);
`none` means the out-pointer was left NULL. -/
structure Engine where
  chromaprint_new : Int → Nat
  chromaprint_start : Nat → Int → Int → Int
  chromaprint_feed : Nat → List Nat → Nat → Int
  chromaprint_finish : Nat → Int
  chromaprint_get_fingerprint : Nat → Int × Option (Nat × List Nat)
  chromaprint_decode_fingerprint :
    List Nat → Nat → Int → Int × Option (Nat × List Int × Nat × Int)
  chromaprint_encode_fingerprint :
    List Int → Nat → Int → Int → Int × Option (Nat × List Nat × Nat)

/-- The `_check` helper (lines 90-95): any status other than 1 raises
`FingerprintError`. -/
def _check (res : Int) : Except PyErr Unit :=
  if res ≠ 1 then Except.error PyErr.fingerprintError else Except.ok ()

def ALGORITHM_TEST1 : Int := 0

def ALGORITHM_TEST2 : Int := 1

def ALGORITHM_TEST3 : Int := 2

def ALGORITHM_DEFAULT : Int := ALGORITHM_TEST2

/-- A `Fingerprinter` object.  The Python object stores only the opaque
context handle `self._ctx`; the `alg` field records the algorithm that was
passed to `chromaprint_new` when the handle was created (engine-side state
of the handle, fixed at creation). -/
structure Fingerprinter where
  ctx : Nat
  alg : Int
  deriving DecidableEq

/-- Construction with an explicit algorithm argument
(`Fingerprinter(algorithm)`, line 105-106). -/
def Fingerprinter.mkSession (E : Engine) (algorithm : Int) : Fingerprinter :=
  { ctx := E.chromaprint_new algorithm, alg := algorithm }

/-- Construction with the defaulted algorithm argument
(`Fingerprinter()`: `algorithm=ALGORITHM_DEFAULT`, line 105). -/
def Fingerprinter.init (E : Engine) : Fingerprinter :=
  Fingerprinter.mkSession E ALGORITHM_DEFAULT

/-- Possible Python values passed to `feed`: a `bytes` object, one of the
accepted buffer types (`memoryview`, `bytearray`), or any other object.
Buffer values carry their byte contents. -/
inductive PyData
  | bytes (bs : List Nat)
  | memoryview (bs : List Nat)
  | bytearray (bs : List Nat)
  | other
  deriving DecidableEq

/-- The `isinstance` dispatch at the top of `feed` (lines 123-126): buffer
types are converted with `BYTES_TYPE(data)` (a contents-preserving copy),
`bytes` passes through, anything else yields `none` (TypeError path). -/
def PyData.asBytes : PyData → Option (List Nat)
  | PyData.bytes bs => some bs
  | PyData.memoryview bs => some bs
  | PyData.bytearray bs => some bs
  | PyData.other => none

/-- The `start` method (lines 112-117).  Returns the result, the object
after the call (no attribute is assigned, so it is unchanged) and the
trace of engine interactions. -/
def Fingerprinter.start (s : Fingerprinter) (E : Engine)
    (sample_rate num_channels : Int) :
    Except PyErr Unit × Fingerprinter × List Event :=
  (_check (E.chromaprint_start s.ctx sample_rate num_channels), s,
    [Event.callStart s.ctx sample_rate num_channels])

/-- The `feed` method (lines 119-129): buffer types are converted to
bytes, non-bytes raise `TypeError` before any engine call, and the chunk
is passed to `chromaprint_feed` with sample count `len(data) // 2`. -/
def Fingerprinter.feed (s : Fingerprinter) (E : Engine) (data : PyData) :
    Except PyErr Unit × Fingerprinter × List Event :=
  match data.asBytes with
  | none => (Except.error PyErr.typeError, s, [])
  | some bs =>
      (_check (E.chromaprint_feed s.ctx bs (bs.length / 2)), s,
        [Event.callFeed s.ctx bs (bs.length / 2)])

/-- The `finish` method (lines 131-142): `chromaprint_finish`, then
`chromaprint_get_fingerprint` into a `c_char_p` out-pointer, checking each
status; on success the Python-level bytes value is read out of the buffer
and the buffer is released with `chromaprint_dealloc`.  A NULL out-pointer
reads as `None`. -/
def Fingerprinter.finish (s : Fingerprinter) (E : Engine) :
    Except PyErr (Option (List Nat)) × Fingerprinter × List Event :=
  match _check (E.chromaprint_finish s.ctx) with
  | Except.error e => (Except.error e, s, [Event.callFinish s.ctx])
  | Except.ok _ =>
      let r := E.chromaprint_get_fingerprint s.ctx
      let allocEvs : List Event :=
        match r.2 with
        | some (id, _) => [Event.allocBuf id]
        | none => []
      let evs := Event.callFinish s.ctx :: Event.callGetFingerprint s.ctx ::
        allocEvs
      match _check r.1 with
      | Except.error e => (Except.error e, s, evs)
      | Except.ok _ =>
          match r.2 with
          | some (id, bs) =>
              (Except.ok (some bs), s, evs ++ [Event.deallocBuf id])
          | none => (Except.ok none, s, evs)

/-- The module-level `decode_fingerprint(data, base64)` (lines 145-155):
calls `chromaprint_decode_fingerprint` with the data, its length and
`1 if base64 else 0`; on success reads `result_size` many `c_int32`
values out of the result buffer, releases the buffer, and returns the
integer list together with the algorithm out-value (0 if the engine left
the out-parameters untouched). -/
def decode_fingerprint (E : Engine) (data : List Nat) (base64 : Bool) :
    Except PyErr (List Int × Int) × List Event :=
  let flag : Int := if base64 then 1 else 0
  let r := E.chromaprint_decode_fingerprint data data.length flag
  let allocEvs : List Event :=
    match r.2 with
    | some (id, _, _, _) => [Event.allocBuf id]
    | none => []
  let evs := Event.callDecode data data.length flag :: allocEvs
  match _check r.1 with
  | Except.error e => (Except.error e, evs)
  | Except.ok _ =>
      match r.2 with
      | some (id, vals, size, algorithm) =>
          (Except.ok ((vals.take size).map toInt32, algorithm),
            evs ++ [Event.deallocBuf id])
      | none => (Except.ok ([], 0), evs)

/-- The copy loop of `encode_fingerprint` (lines 159-161):
`fp_array = (c_int * len(fingerprint))()` is zero-initialised, then
`for i in range(n): fp_array[i] = fingerprint[i]`.  The pair threads the
two locals through the iterations: first component the `fingerprint`
argument (only read), second the `fp_array` cells (`c_int` assignment
wraps to 32 bits). -/
def encodeCopyLoop (fingerprint : List Int) : Nat → List Int × List Int
  | 0 => (fingerprint, List.replicate fingerprint.length 0)
  | n + 1 =>
      let p := encodeCopyLoop fingerprint n
      (p.1, p.2.set n (toInt32 (p.1.getD n 0)))

/-- The module-level `encode_fingerprint(fingerprint, algorithm, base64)`
(lines 158-170): copies the fingerprint into a fresh `c_int` array, calls
`chromaprint_encode_fingerprint`, and on success reads `result_size` many
bytes out of the result buffer and releases it.  Besides the result and
the trace, the value of the caller's `fingerprint` after the call is
returned (second component), making mutation of the argument visible. -/
def encode_fingerprint (E : Engine) (fingerprint : List Int)
    (algorithm : Int) (base64 : Bool) :
    Except PyErr (List Nat) × List Int × List Event :=
  let n := fingerprint.length
  let l := encodeCopyLoop fingerprint n
  let flag : Int := if base64 then 1 else 0
  let r := E.chromaprint_encode_fingerprint l.2 n algorithm flag
  let allocEvs : List Event :=
    match r.2 with
    | some (id, _, _) => [Event.allocBuf id]
    | none => []
  let evs := Event.callEncode l.2 n algorithm flag :: allocEvs
  match _check r.1 with
  | Except.error e => (Except.error e, l.1, evs)
  | Except.ok _ =>
      match r.2 with
      | some (id, buf, size) =>
          (Except.ok (buf.take size), l.1, evs ++ [Event.deallocBuf id])
      | none => (Except.ok [], l.1, evs)

/-- Buffer ids allocated by the engine during a trace. -/
def allocs (tr : List Event) : List Nat :=
  tr.filterMap fun e =>
    match e with
    | Event.allocBuf i => some i
    | _ => none

/-- Buffer ids released via `chromaprint_dealloc` during a trace. -/
def deallocs (tr : List Event) : List Nat :=
  tr.filterMap fun e =>
    match e with
    | Event.deallocBuf i => some i
    | _ => none

/-- A lifecycle operation invoked on a session (used to state that no
operation changes the object). -/
inductive SessionOp
  | startOp (sample_rate num_channels : Int)
  | feedOp (data : PyData)
  | finishOp

/-- Run one operation on a session, keeping the object it leaves behind. -/
def runOp (E : Engine) (s : Fingerprinter) : SessionOp → Fingerprinter
  | SessionOp.startOp r c => (s.start E r c).2.1
  | SessionOp.feedOp d => (s.feed E d).2.1
  | SessionOp.finishOp => (s.finish E).2.1

/-- Run a sequence of operations on a session. -/
def runOps (E : Engine) (s : Fingerprinter) (ops : List SessionOp) :
    Fingerprinter :=
  ops.foldl (runOp E) s

/-- Serialisation of one signed 32-bit value to four little-endian bytes
(used by the reference engine below). -/
def int32ToBytes (x : Int) : List Nat :=
  let u := (x % 4294967296).toNat
  [u % 256, u / 256 % 256, u / 65536 % 256, u / 16777216 % 256]

/-- Inverse of `int32ToBytes`, reading groups of four little-endian bytes
as signed 32-bit values (used by the reference engine below). -/
def bytesToInt32s : List Nat → List Int
  | b0 :: b1 :: b2 :: b3 :: rest =>
      toInt32 (Int.ofNat (b0 + b1 * 256 + b2 * 65536 + b3 * 16777216)) ::
        bytesToInt32s rest
  | _ => []

/-- Modelled from the spec: a concrete instance of the external engine
capability interface of section 6 (the native library itself is not part
of the repository).  Every stateful call accepts and reports the success
sentinel 1; `encode` serialises the fingerprint as an algorithm byte
followed by four little-endian bytes per value, and `decode` inverts
that, so the spec's round-trip contract holds for it.  Used to
instantiate theorems at concrete inputs. -/
def refEngine : Engine where
  chromaprint_new := fun _ => 7
  chromaprint_start := fun _ _ _ => 1
  chromaprint_feed := fun _ _ _ => 1
  chromaprint_finish := fun _ => 1
  chromaprint_get_fingerprint := fun _ => (1, some (0, [102, 112, 49]))
  chromaprint_decode_fingerprint := fun data _ _ =>
    match data with
    | a :: rest =>
        (1, some (1, bytesToInt32s rest, (bytesToInt32s rest).length,
          Int.ofNat a))
    | [] => (0, none)
  chromaprint_encode_fingerprint := fun fp _ algorithm _ =>
    let buf := Int.toNat (algorithm % 256) :: fp.flatMap int32ToBytes
    (1, some (2, buf, buf.length))

/-- Modelled from the spec: an engine instance whose every call reports
failure (status 0) and allocates nothing, within the section 6 status
convention.  Used to instantiate error paths at concrete inputs. -/
def failEngine : Engine where
  chromaprint_new := fun _ => 9
  chromaprint_start := fun _ _ _ => 0
  chromaprint_feed := fun _ _ _ => 0
  chromaprint_finish := fun _ => 0
  chromaprint_get_fingerprint := fun _ => (0, none)
  chromaprint_decode_fingerprint := fun _ _ _ => (0, none)
  chromaprint_encode_fingerprint := fun _ _ _ _ => (0, none)

/-- Modelled from the spec: the error sub-kind taxonomy named in sections
4.3 and 7 of the specification (`InvalidArgument`, `InvalidState`,
`EngineError`, `DecodeError`, `EncodeError`), stated here only to compare
the specified taxonomy with the single error class the source defines. -/
inductive SpecErrorSubKind
  | invalidArgument
  | invalidState
  | engineError
  | decodeError
  | encodeError
  deriving DecidableEq

/-! Helper lemmas. -/

theorem check_ok_of_one : _check 1 = Except.ok () := rfl

theorem check_eq_ok_iff (st : Int) : _check st = Except.ok () ↔ st = 1 := by
  unfold _check
  by_cases h : st = 1 <;> simp [h]

theorem check_eq_error_iff (st : Int) :
    _check st = Except.error PyErr.fingerprintError ↔ st ≠ 1 := by
  unfold _check
  by_cases h : st = 1 <;> simp [h]

theorem toInt32_lb (n : Int) : -2147483648 ≤ toInt32 n := by
  unfold toInt32
  have h := Int.emod_nonneg (n + 2147483648) (by decide : (4294967296 : Int) ≠ 0)
  omega

theorem toInt32_ub (n : Int) : toInt32 n < 2147483648 := by
  unfold toInt32
  have h := Int.emod_lt_of_pos (n + 2147483648)
    (by decide : (0 : Int) < 4294967296)
  omega

theorem toInt32_eq_self (n : Int) (hlb : -2147483648 ≤ n)
    (hub : n < 2147483648) : toInt32 n = n := by
  unfold toInt32
  rw [Int.emod_eq_of_lt (by omega) (by omega)]
  omega

theorem map_toInt32_eq_self (l : List Int)
    (h : ∀ x ∈ l, -2147483648 ≤ x ∧ x < 2147483648) :
    l.map toInt32 = l := by
  induction l with
  | nil => rfl
  | cons a t ih =>
      have ha := h a (List.mem_cons_self a t)
      simp only [List.map_cons, toInt32_eq_self a ha.1 ha.2, List.cons.injEq,
        true_and]
      exact ih fun x hx => h x (List.mem_cons_of_mem a hx)

theorem set_at_append {α : Type} (xs : List α) (y : α) (ys : List α)
    (v : α) : (xs ++ y :: ys).set xs.length v = xs ++ v :: ys := by
  induction xs with
  | nil => rfl
  | cons a t ih =>
      show a :: (t ++ y :: ys).set t.length v = a :: (t ++ v :: ys)
      rw [ih]

theorem take_succ_getD {α : Type} (l : List α) (n : Nat) (d : α)
    (h : n < l.length) : l.take (n + 1) = l.take n ++ [l.getD n d] := by
  induction l generalizing n with
  | nil => simp at h
  | cons a t ih =>
      cases n with
      | zero => simp [List.getD]
      | succ m =>
          have hm : m < t.length := by
            simpa using Nat.lt_of_succ_lt_succ h
          show a :: t.take (m + 1) = a :: (t.take m ++ [t.getD m d])
          rw [ih m hm]

theorem encodeCopyLoop_fst (fp : List Int) (n : Nat) :
    (encodeCopyLoop fp n).1 = fp := by
  induction n with
  | zero => rfl
  | succ m ih => simp [encodeCopyLoop, ih]

theorem encodeCopyLoop_snd (fp : List Int) (n : Nat) (h : n ≤ fp.length) :
    (encodeCopyLoop fp n).2 =
      (fp.take n).map toInt32 ++ List.replicate (fp.length - n) 0 := by
  induction n with
  | zero => simp [encodeCopyLoop]
  | succ m ih =>
      have hm : m < fp.length := Nat.lt_of_succ_le h
      have hm' : m ≤ fp.length := Nat.le_of_lt hm
      have hlen : ((fp.take m).map toInt32).length = m := by
        simp [List.length_take, Nat.min_eq_left hm']
      have hrep : List.replicate (fp.length - m) (0 : Int) =
          0 :: List.replicate (fp.length - (m + 1)) 0 := by
        have : fp.length - m = (fp.length - (m + 1)) + 1 := by omega
        rw [this, List.replicate_succ]
      calc (encodeCopyLoop fp (m + 1)).2
      _ = ((fp.take m).map toInt32 ++
            List.replicate (fp.length - m) 0).set m (toInt32 (fp.getD m 0)) := by
            simp [encodeCopyLoop, ih hm', encodeCopyLoop_fst]
      _ = ((fp.take m).map toInt32 ++
            0 :: List.replicate (fp.length - (m + 1)) 0).set
              ((fp.take m).map toInt32).length (toInt32 (fp.getD m 0)) := by
            rw [hrep, hlen]
      _ = (fp.take m).map toInt32 ++ toInt32 (fp.getD m 0) ::
            List.replicate (fp.length - (m + 1)) 0 := by
            rw [set_at_append]
      _ = (fp.take (m + 1)).map toInt32 ++
            List.replicate (fp.length - (m + 1)) 0 := by
            rw [take_succ_getD fp m 0 hm]
            simp

theorem encodeCopyLoop_full (fp : List Int) :
    (encodeCopyLoop fp fp.length).2 = fp.map toInt32 := by
  rw [encodeCopyLoop_snd fp fp.length (Nat.le_refl _)]
  simp

theorem feed_session_unchanged (E : Engine) (s : Fingerprinter)
    (d : PyData) : (s.feed E d).2.1 = s := by
  cases d <;> rfl

theorem finish_session_unchanged (E : Engine) (s : Fingerprinter) :
    (s.finish E).2.1 = s := by
  unfold Fingerprinter.finish
  by_cases h1 : E.chromaprint_finish s.ctx = 1
  · by_cases h2 : (E.chromaprint_get_fingerprint s.ctx).1 = 1
    · rcases h3 : (E.chromaprint_get_fingerprint s.ctx).2 with _ | ⟨id, bs⟩ <;>
        simp [_check, h1, h2, h3]
    · simp [_check, h1, h2]
  · simp [_check, h1]

theorem runOp_fix (E : Engine) (s : Fingerprinter) (op : SessionOp) :
    runOp E s op = s := by
  cases op with
  | startOp r c => rfl
  | feedOp d => exact feed_session_unchanged E s d
  | finishOp => exact finish_session_unchanged E s

/-! Claim theorems. -/

/-- Claim C6: for every even-length chunk accepted by `feed`, the engine
is passed the chunk bytes themselves together with a sample count equal
to the chunk's byte length divided by 2. -/
theorem feed_passes_half_length (E : Engine) (s : Fingerprinter)
    (d : PyData) (bs : List Nat) (hb : d.asBytes = some bs)
    (he : bs.length % 2 = 0) :
    (s.feed E d).2.2 = [Event.callFeed s.ctx bs (bs.length / 2)] ∧
    2 * (bs.length / 2) = bs.length := by
  constructor
  · unfold Fingerprinter.feed
    rw [hb]
  · omega

/-- Witness for C6 at a concrete chunk of four bytes. -/
theorem feed_passes_half_length_witness :
    (PyData.asBytes (PyData.bytes [5, 6, 7, 8]) = some [5, 6, 7, 8] ∧
      [5, 6, 7, 8].length % 2 = 0) ∧
    ((Fingerprinter.init refEngine).feed refEngine
        (PyData.bytes [5, 6, 7, 8])).2.2 =
      [Event.callFeed (Fingerprinter.init refEngine).ctx [5, 6, 7, 8]
        ([5, 6, 7, 8].length / 2)] ∧
    2 * ([5, 6, 7, 8].length / 2) = [5, 6, 7, 8].length :=
  ⟨⟨rfl, rfl⟩,
    feed_passes_half_length refEngine (Fingerprinter.init refEngine)
      (PyData.bytes [5, 6, 7, 8]) [5, 6, 7, 8] rfl rfl⟩

/-- Claim C8: constructing a session without an algorithm argument
selects `ALGORITHM_TEST2`, and no later operation on the session changes
the object (in particular the algorithm its engine context was created
with). -/
theorem default_algorithm_fixed (E : Engine) (ops : List SessionOp) :
    (Fingerprinter.init E).alg = ALGORITHM_TEST2 ∧
    runOps E (Fingerprinter.init E) ops = Fingerprinter.init E := by
  refine ⟨rfl, ?_⟩
  have h : ∀ (l : List SessionOp) (s : Fingerprinter), runOps E s l = s := by
    intro l
    induction l with
    | nil => intro s; rfl
    | cons op t ih =>
        intro s
        show runOps E (runOp E s op) t = s
        rw [runOp_fix, ih]
  exact h ops _

/-- Claim C9: feeding a value that is neither bytes nor one of the
accepted buffer types raises `TypeError` (a kind distinct from
`FingerprintError`) with no engine call made and the session unchanged. -/
theorem feed_type_error_no_engine_call (E : Engine) (s : Fingerprinter) :
    s.feed E PyData.other = (Except.error PyErr.typeError, s, []) ∧
    PyErr.typeError ≠ PyErr.fingerprintError :=
  ⟨rfl, by decide⟩

/-- Claim C10: `encode_fingerprint` never modifies the caller's
fingerprint sequence — it is element-for-element identical after the
call on success and error paths alike — and the engine is called with a
fresh copy of the elements (wrapped to 32 bits by `c_int` storage). -/
theorem encode_preserves_input (E : Engine) (fp : List Int)
    (algorithm : Int) (b64 : Bool) :
    (encode_fingerprint E fp algorithm b64).2.1 = fp ∧
    ∃ rest, (encode_fingerprint E fp algorithm b64).2.2 =
      Event.callEncode (fp.map toInt32) fp.length algorithm
        (if b64 then 1 else 0) :: rest := by
  rcases hr : E.chromaprint_encode_fingerprint (fp.map toInt32)
      fp.length algorithm (if b64 then 1 else 0) with ⟨st, ro⟩
  by_cases hst : st = 1
  · rcases ro with _ | ⟨id, buf, size⟩
    · constructor
      · simp [encode_fingerprint, encodeCopyLoop_full, hr, _check, hst,
          encodeCopyLoop_fst]
      · exact ⟨[], by simp [encode_fingerprint, encodeCopyLoop_full, hr,
          _check, hst]⟩
    · constructor
      · simp [encode_fingerprint, encodeCopyLoop_full, hr, _check, hst,
          encodeCopyLoop_fst]
      · exact ⟨[Event.allocBuf id, Event.deallocBuf id],
          by simp [encode_fingerprint, encodeCopyLoop_full, hr, _check, hst]⟩
  · constructor
    · simp [encode_fingerprint, encodeCopyLoop_full, hr, _check, hst,
        encodeCopyLoop_fst]
    · rcases ro with _ | ⟨id, buf, size⟩
      · exact ⟨[], by simp [encode_fingerprint, encodeCopyLoop_full, hr,
          _check, hst]⟩
      · exact ⟨[Event.allocBuf id],
          by simp [encode_fingerprint, encodeCopyLoop_full, hr, _check, hst]⟩

/-- Counterexample to claim C2 as stated: on a freshly started session,
feeding the odd-length chunk `[1, 2, 3]` raises no error at all (with an
engine that reports success, as the wrapper makes no length check). -/
theorem feed_odd_accepted_counterexample :
    (((Fingerprinter.init refEngine).start refEngine 44100 2).1 =
        Except.ok () ∧
      ((((Fingerprinter.init refEngine).start refEngine 44100 2).2.1).feed
          refEngine (PyData.bytes [1, 2, 3])).1 = Except.ok ()) ∧
    [1, 2, 3].length % 2 = 1 :=
  ⟨⟨rfl, rfl⟩, rfl⟩

/-- Claim C2 as amended: `feed` performs no parity check on the chunk
length; an odd-length chunk is forwarded to the engine with sample count
`len / 2` (the trailing byte dropped), the call succeeds exactly when the
engine reports status 1 (no `InvalidArgument` is ever raised), and the
session object is unchanged. -/
theorem feed_odd_forwards_halved_count (E : Engine) (s : Fingerprinter)
    (bs : List Nat) (h : bs.length % 2 = 1) :
    (s.feed E (PyData.bytes bs)).2.2 =
      [Event.callFeed s.ctx bs (bs.length / 2)] ∧
    2 * (bs.length / 2) + 1 = bs.length ∧
    ((s.feed E (PyData.bytes bs)).1 = Except.ok () ↔
      E.chromaprint_feed s.ctx bs (bs.length / 2) = 1) ∧
    (s.feed E (PyData.bytes bs)).2.1 = s := by
  refine ⟨rfl, by omega, ?_, rfl⟩
  exact check_eq_ok_iff _

/-- Witness for the amended C2 at the concrete odd chunk `[9]`. -/
theorem feed_odd_forwards_witness :
    [9].length % 2 = 1 ∧
    ((Fingerprinter.init refEngine).feed refEngine
        (PyData.bytes [9])).2.1 = Fingerprinter.init refEngine :=
  ⟨rfl, (feed_odd_forwards_halved_count refEngine
      (Fingerprinter.init refEngine) [9] rfl).2.2.2⟩

/-- Counterexample to claim C3 as stated: with an engine that reports
success, `finish` on a freshly constructed session (state Created, no
`start` ever called) succeeds, and so does an immediately repeated
`finish`; no `InvalidState` error is raised in either case. -/
theorem finish_created_succeeds_counterexample :
    ((Fingerprinter.init refEngine).finish refEngine).1 =
      Except.ok (some [102, 112, 49]) ∧
    ((((Fingerprinter.init refEngine).finish refEngine).2.1).finish
        refEngine).1 = Except.ok (some [102, 112, 49]) :=
  ⟨rfl, rfl⟩

/-- Claim C3 as amended: `finish` makes no lifecycle-state check and the
wrapper defines no `InvalidState` error: whatever the call history, it
raises the single `FingerprintError` exactly when the engine's finish or
get-fingerprint status is not 1, it leaves the session object unchanged,
and a repeated `finish` therefore behaves identically to the first. -/
theorem finish_no_lifecycle_check (E : Engine) (s : Fingerprinter) :
    ((s.finish E).1 = Except.error PyErr.fingerprintError ↔
      ¬(E.chromaprint_finish s.ctx = 1 ∧
        (E.chromaprint_get_fingerprint s.ctx).1 = 1)) ∧
    (s.finish E).2.1 = s ∧
    ((s.finish E).2.1).finish E = s.finish E := by
  refine ⟨?_, finish_session_unchanged E s,
    by rw [finish_session_unchanged]⟩
  unfold Fingerprinter.finish
  by_cases h1 : E.chromaprint_finish s.ctx = 1
  · by_cases h2 : (E.chromaprint_get_fingerprint s.ctx).1 = 1
    · rcases h3 : (E.chromaprint_get_fingerprint s.ctx).2 with _ | ⟨id, bs⟩ <;>
        simp [_check, h1, h2, h3]
    · simp [_check, h1, h2]
  · simp [_check, h1]

/-- Claim C1: for every fingerprint of 32-bit signed integers and every
algorithm id, decoding the result of encoding reproduces the original
sequence and algorithm, for both values of the text/base64 switch.  The
two hypotheses on `E` are the engine-side contract of spec sections 3 and
6 (the native codec is external): encoding the passed array succeeds with
some buffer, and decoding that buffer succeeds reporting the original
values, their count, and the algorithm. -/
theorem encode_decode_roundtrip (E : Engine) (fp : List Int) (alg : Int)
    (b64 : Bool) (i j : Nat) (buf : List Nat)
    (h32 : ∀ x ∈ fp, -2147483648 ≤ x ∧ x < 2147483648)
    (henc : E.chromaprint_encode_fingerprint fp fp.length alg
        (if b64 then 1 else 0) = (1, some (i, buf, buf.length)))
    (hdec : E.chromaprint_decode_fingerprint buf buf.length
        (if b64 then 1 else 0) = (1, some (j, fp, fp.length, alg))) :
    (encode_fingerprint E fp alg b64).1 = Except.ok buf ∧
    (decode_fingerprint E buf b64).1 = Except.ok (fp, alg) := by
  have hmap := map_toInt32_eq_self fp h32
  constructor
  · simp [encode_fingerprint, encodeCopyLoop_full, hmap, henc, _check]
  · simp [decode_fingerprint, hdec, _check, hmap]

/-- Witness for C1: the reference engine round-trips the fingerprint
`[1, -1]` with algorithm 1 under both switch values. -/
theorem encode_decode_roundtrip_witness :
    ((encode_fingerprint refEngine [1, -1] 1 true).1 =
        Except.ok [1, 1, 0, 0, 0, 255, 255, 255, 255] ∧
      (decode_fingerprint refEngine [1, 1, 0, 0, 0, 255, 255, 255, 255]
          true).1 = Except.ok ([1, -1], 1)) ∧
    ((encode_fingerprint refEngine [1, -1] 1 false).1 =
        Except.ok [1, 1, 0, 0, 0, 255, 255, 255, 255] ∧
      (decode_fingerprint refEngine [1, 1, 0, 0, 0, 255, 255, 255, 255]
          false).1 = Except.ok ([1, -1], 1)) :=
  ⟨encode_decode_roundtrip refEngine [1, -1] 1 true 2 1
      [1, 1, 0, 0, 0, 255, 255, 255, 255] (by decide) (by decide) (by decide),
    encode_decode_roundtrip refEngine [1, -1] 1 false 2 1
      [1, 1, 0, 0, 0, 255, 255, 255, 255] (by decide) (by decide) (by decide)⟩

/-- Counterexample to claim C4 as stated: a failing engine decode and a
failing engine feed surface the very same error value — the argument-free
`FingerprintError` — and no classification can make that single value
both the decode-appropriate sub-kind (`DecodeError`) and the
feed-appropriate one (`EngineError`); the source defines no sub-kinds at
all. -/
theorem single_error_kind_counterexample :
    (decode_fingerprint failEngine [0] true).1 =
      Except.error PyErr.fingerprintError ∧
    ((Fingerprinter.init failEngine).feed failEngine
        (PyData.bytes [0, 0])).1 = Except.error PyErr.fingerprintError ∧
    ¬∃ k : PyErr → SpecErrorSubKind,
        k PyErr.fingerprintError = SpecErrorSubKind.decodeError ∧
        k PyErr.fingerprintError = SpecErrorSubKind.engineError := by
  refine ⟨rfl, rfl, ?_⟩
  rintro ⟨k, hk1, hk2⟩
  rw [hk1] at hk2
  exact SpecErrorSubKind.noConfusion hk2

/-- Claim C4 as amended: for every engine call made by start, feed,
finish, decode or encode, a returned status other than the success
sentinel 1 makes the operation raise the module's single error kind
`FingerprintError` (which carries no sub-kind distinction) before
returning; if every checked status is 1, no error is raised. -/
theorem status_check_single_error_kind (E : Engine) (s : Fingerprinter)
    (sample_rate num_channels : Int) (bs data : List Nat) (fp : List Int)
    (algorithm : Int) (b64 : Bool) :
    (E.chromaprint_start s.ctx sample_rate num_channels = 1 →
      (s.start E sample_rate num_channels).1 = Except.ok ()) ∧
    (E.chromaprint_start s.ctx sample_rate num_channels ≠ 1 →
      (s.start E sample_rate num_channels).1 =
        Except.error PyErr.fingerprintError) ∧
    (E.chromaprint_feed s.ctx bs (bs.length / 2) = 1 →
      (s.feed E (PyData.bytes bs)).1 = Except.ok ()) ∧
    (E.chromaprint_feed s.ctx bs (bs.length / 2) ≠ 1 →
      (s.feed E (PyData.bytes bs)).1 = Except.error PyErr.fingerprintError) ∧
    (E.chromaprint_finish s.ctx = 1 ∧
        (E.chromaprint_get_fingerprint s.ctx).1 = 1 →
      ∃ v, (s.finish E).1 = Except.ok v) ∧
    (¬(E.chromaprint_finish s.ctx = 1 ∧
        (E.chromaprint_get_fingerprint s.ctx).1 = 1) →
      (s.finish E).1 = Except.error PyErr.fingerprintError) ∧
    ((E.chromaprint_decode_fingerprint data data.length
        (if b64 then 1 else 0)).1 = 1 →
      ∃ v, (decode_fingerprint E data b64).1 = Except.ok v) ∧
    ((E.chromaprint_decode_fingerprint data data.length
        (if b64 then 1 else 0)).1 ≠ 1 →
      (decode_fingerprint E data b64).1 =
        Except.error PyErr.fingerprintError) ∧
    ((E.chromaprint_encode_fingerprint (fp.map toInt32) fp.length algorithm
        (if b64 then 1 else 0)).1 = 1 →
      ∃ v, (encode_fingerprint E fp algorithm b64).1 = Except.ok v) ∧
    ((E.chromaprint_encode_fingerprint (fp.map toInt32) fp.length algorithm
        (if b64 then 1 else 0)).1 ≠ 1 →
      (encode_fingerprint E fp algorithm b64).1 =
        Except.error PyErr.fingerprintError) := by
  refine ⟨?_, ?_, ?_, ?_, ?_, ?_, ?_, ?_, ?_, ?_⟩
  · intro h
    simp [Fingerprinter.start, _check, h]
  · intro h
    simp [Fingerprinter.start, _check, h]
  · intro h
    simp [Fingerprinter.feed, PyData.asBytes, _check, h]
  · intro h
    simp [Fingerprinter.feed, PyData.asBytes, _check, h]
  · rintro ⟨h1, h2⟩
    rcases h3 : (E.chromaprint_get_fingerprint s.ctx).2 with _ | ⟨id, v⟩
    · exact ⟨none, by simp [Fingerprinter.finish, _check, h1, h2, h3]⟩
    · exact ⟨some v, by simp [Fingerprinter.finish, _check, h1, h2, h3]⟩
  · intro h
    by_cases h1 : E.chromaprint_finish s.ctx = 1
    · have h2 : (E.chromaprint_get_fingerprint s.ctx).1 ≠ 1 := by
        intro h2
        exact h ⟨h1, h2⟩
      simp [Fingerprinter.finish, _check, h1, h2]
    · simp [Fingerprinter.finish, _check, h1]
  · intro h
    rcases h3 : (E.chromaprint_decode_fingerprint data data.length
        (if b64 then 1 else 0)).2 with _ | ⟨id, vals, size, a⟩
    · exact ⟨([], 0), by simp [decode_fingerprint, _check, h, h3]⟩
    · exact ⟨((vals.take size).map toInt32, a),
        by simp [decode_fingerprint, _check, h, h3]⟩
  · intro h
    simp [decode_fingerprint, _check, h]
  · intro h
    rcases h3 : (E.chromaprint_encode_fingerprint (fp.map toInt32) fp.length
        algorithm (if b64 then 1 else 0)).2 with _ | ⟨id, buf, size⟩
    · exact ⟨[], by simp [encode_fingerprint, encodeCopyLoop_full, _check,
        h, h3]⟩
    · exact ⟨buf.take size, by simp [encode_fingerprint, encodeCopyLoop_full,
        _check, h, h3]⟩
  · intro h
    simp [encode_fingerprint, encodeCopyLoop_full, _check, h]

/-- Witness for the amended C4: with the all-success reference engine,
start raises nothing, and with the all-failure engine it raises
`FingerprintError`. -/
theorem status_check_witness :
    ((Fingerprinter.init refEngine).start refEngine 44100 2).1 =
      Except.ok () ∧
    ((Fingerprinter.init failEngine).start failEngine 44100 2).1 =
      Except.error PyErr.fingerprintError :=
  ⟨(status_check_single_error_kind refEngine (Fingerprinter.init refEngine)
      44100 2 [] [] [] 0 true).1 rfl,
    (status_check_single_error_kind failEngine (Fingerprinter.init failEngine)
      44100 2 [] [] [] 0 true).2.1 (by decide)⟩

/-- Claim C5: on every exit path of finish, decode and encode — error
paths included — the engine-allocated output buffers released via
`chromaprint_dealloc` are exactly the allocated ones, once each (the
alloc and dealloc traces agree).  The hypotheses are the engine contract
that a failing call leaves its out-pointer unallocated (NULL); the
returned values are copies, never the buffers themselves. -/
theorem buffers_released_exactly_once (E : Engine) (s : Fingerprinter)
    (data : List Nat) (fp : List Int) (algorithm : Int) (b64 : Bool)
    (hfin : (E.chromaprint_get_fingerprint s.ctx).1 ≠ 1 →
      (E.chromaprint_get_fingerprint s.ctx).2 = none)
    (hdec : (E.chromaprint_decode_fingerprint data data.length
        (if b64 then 1 else 0)).1 ≠ 1 →
      (E.chromaprint_decode_fingerprint data data.length
        (if b64 then 1 else 0)).2 = none)
    (henc : (E.chromaprint_encode_fingerprint (fp.map toInt32) fp.length
        algorithm (if b64 then 1 else 0)).1 ≠ 1 →
      (E.chromaprint_encode_fingerprint (fp.map toInt32) fp.length
        algorithm (if b64 then 1 else 0)).2 = none) :
    allocs (s.finish E).2.2 = deallocs (s.finish E).2.2 ∧
    allocs (decode_fingerprint E data b64).2 =
      deallocs (decode_fingerprint E data b64).2 ∧
    allocs (encode_fingerprint E fp algorithm b64).2.2 =
      deallocs (encode_fingerprint E fp algorithm b64).2.2 := by
  refine ⟨?_, ?_, ?_⟩
  · by_cases h1 : E.chromaprint_finish s.ctx = 1
    · by_cases h2 : (E.chromaprint_get_fingerprint s.ctx).1 = 1
      · rcases h3 : (E.chromaprint_get_fingerprint s.ctx).2 with _ | ⟨id, v⟩ <;>
          simp [Fingerprinter.finish, _check, h1, h2, h3, allocs, deallocs]
      · simp [Fingerprinter.finish, _check, h1, h2, hfin h2, allocs, deallocs]
    · simp [Fingerprinter.finish, _check, h1, allocs, deallocs]
  · by_cases h1 : (E.chromaprint_decode_fingerprint data data.length
        (if b64 then 1 else 0)).1 = 1
    · rcases h3 : (E.chromaprint_decode_fingerprint data data.length
          (if b64 then 1 else 0)).2 with _ | ⟨id, vals, size, a⟩ <;>
        simp [decode_fingerprint, _check, h1, h3, allocs, deallocs]
    · simp [decode_fingerprint, _check, h1, hdec h1, allocs, deallocs]
  · by_cases h1 : (E.chromaprint_encode_fingerprint (fp.map toInt32)
        fp.length algorithm (if b64 then 1 else 0)).1 = 1
    · rcases h3 : (E.chromaprint_encode_fingerprint (fp.map toInt32)
          fp.length algorithm (if b64 then 1 else 0)).2 with
        _ | ⟨id, buf, size⟩ <;>
        simp [encode_fingerprint, encodeCopyLoop_full, _check, h1, h3,
          allocs, deallocs]
    · simp [encode_fingerprint, encodeCopyLoop_full, _check, h1, henc h1,
        allocs, deallocs]

/-- Witness for C5 at concrete inputs on the reference engine. -/
theorem buffers_released_witness :
    allocs ((Fingerprinter.init refEngine).finish refEngine).2.2 =
      deallocs ((Fingerprinter.init refEngine).finish refEngine).2.2 ∧
    allocs (decode_fingerprint refEngine [1, 1, 0, 0, 0] true).2 =
      deallocs (decode_fingerprint refEngine [1, 1, 0, 0, 0] true).2 ∧
    allocs (encode_fingerprint refEngine [3] 1 true).2.2 =
      deallocs (encode_fingerprint refEngine [3] 1 true).2.2 :=
  buffers_released_exactly_once refEngine (Fingerprinter.init refEngine)
    [1, 1, 0, 0, 0] [3] 1 true (by decide) (by decide) (by decide)

/-- Claim C7: for a well-formed encoded fingerprint, the integer sequence
returned by decode has exactly the length reported by the engine for the
encoded content (decode takes no caller-supplied length for the output),
and every returned element is a signed 32-bit integer.  The hypotheses
are the engine contract: the decode call succeeds and reports a size
matching the buffer it filled. -/
theorem decode_length_from_engine (E : Engine) (data : List Nat)
    (b64 : Bool) (j size : Nat) (vals : List Int) (alg : Int)
    (hdec : E.chromaprint_decode_fingerprint data data.length
        (if b64 then 1 else 0) = (1, some (j, vals, size, alg)))
    (hsz : size = vals.length) :
    ∃ res, (decode_fingerprint E data b64).1 = Except.ok (res, alg) ∧
      res.length = size ∧
      ∀ x ∈ res, -2147483648 ≤ x ∧ x < 2147483648 := by
  refine ⟨(vals.take size).map toInt32, ?_, ?_, ?_⟩
  · simp [decode_fingerprint, hdec, _check]
  · simp [List.length_take, hsz]
  · intro x hx
    rcases List.mem_map.mp hx with ⟨y, _, rfl⟩
    exact ⟨toInt32_lb y, toInt32_ub y⟩

/-- Witness for C7: decoding a five-byte encoded fingerprint on the
reference engine yields exactly the one reported value. -/
theorem decode_length_from_engine_witness :
    ∃ res, (decode_fingerprint refEngine [1, 1, 0, 0, 0] true).1 =
        Except.ok (res, 1) ∧
      res.length = 1 ∧
      ∀ x ∈ res, -2147483648 ≤ x ∧ x < 2147483648 :=
  decode_length_from_engine refEngine [1, 1, 0, 0, 0] true 1 1 [1] 1
    (by decide) (by decide)

end Chromaprint
